import Mathlib

/-
Verification of the Mach image symbol-resolution subsystem (kern_mach.cpp).

The development shallowly embeds MachInfo and its operations: machine
integers are Nat with explicit reduction mod 2^64 where the C code can
wrap; raw memory and file buffers are byte functions `Nat → Nat` read
through little-endian accessors; C strings are lists of byte values
(the bytes before the terminating NUL).
-/

set_option maxRecDepth 10000

namespace Mach

/-- Modulus of 64-bit unsigned arithmetic. -/
def U64 : Nat := 2 ^ 64

/-- Magic tag of a concrete 64-bit Mach-O header (MH_MAGIC_64). -/
def MH_MAGIC_64 : Nat := 0xfeedfacf

/-- Load-command tag of a 64-bit segment command (LC_SEGMENT_64). -/
def LC_SEGMENT_64 : Nat := 0x19

/-- Load-command tag of a symbol-table command (LC_SYMTAB). -/
def LC_SYMTAB : Nat := 0x2

/-- Write-protection bit of control register CR0 (CR0_WP, bit 16). -/
def CR0_WP : Nat := 0x10000

/-- Mach success return value. -/
def KERN_SUCCESS : Nat := 0

/-- Mach generic failure return value. -/
def KERN_FAILURE : Nat := 5

/-- Errno value returned by readFileData on a short read. -/
def EINVAL : Nat := 22

/-- Byte read from a buffer, normalised to an 8-bit value. -/
def byteAt (buf : Nat → Nat) (i : Nat) : Nat := buf i % 256

/-- Little-endian 16-bit read at a byte offset. -/
def readU16 (buf : Nat → Nat) (off : Nat) : Nat :=
  byteAt buf off + byteAt buf (off + 1) * 256

/-- Little-endian 32-bit read at a byte offset. -/
def readU32 (buf : Nat → Nat) (off : Nat) : Nat :=
  readU16 buf off + readU16 buf (off + 2) * 65536

/-- Little-endian 64-bit read at a byte offset. -/
def readU64 (buf : Nat → Nat) (off : Nat) : Nat :=
  readU32 buf off + readU32 buf (off + 4) * 4294967296

/-- Wrapping 64-bit subtraction `a - b` as computed on uint64_t values. -/
def sub64 (a b : Nat) : Nat := (a % U64 + U64 - b % U64) % U64

/-- Buffer backed by a list of bytes laid out from address 0; reads outside
the list give 0. -/
def memOfList (l : List Nat) : Nat → Nat :=
  fun a => l.getD a 0

/-- Buffer backed by a list of bytes laid out from address `base`. -/
def memOfListAt (base : Nat) (l : List Nat) : Nat → Nat :=
  fun a => if a < base then 0 else l.getD (a - base) 0

/-- Result of `strncmp(s, buf+off, strlen(s)+1) == 0` for a C string `s`
given as its list of pre-NUL bytes: every byte of `s` must match and the
byte following the last one must be the NUL terminator. -/
def strncmpEq (buf : Nat → Nat) (off : Nat) : List Nat → Bool
  | [] => byteAt buf off == 0
  | b :: bs => byteAt buf off == b && strncmpEq buf (off + 1) bs

/-- Exact C-string equality at offset `off`: the `s.length + 1` bytes
starting at `off` are exactly the bytes of `s` followed by the NUL
terminator. -/
def cstrBytesAt (buf : Nat → Nat) (off : Nat) (s : List Nat) : Prop :=
  (List.range (s.length + 1)).map (fun k => byteAt buf (off + k)) = s ++ [0]

instance (buf : Nat → Nat) (off : Nat) (s : List Nat) :
    Decidable (cstrBytesAt buf off s) := by
  unfold cstrBytesAt
  infer_instance

/-- Byte values of the segment name "__TEXT". -/
def segnameTEXT : List Nat := [95, 95, 84, 69, 88, 84]

/-- Byte values of the segment name "__LINKEDIT". -/
def segnameLINKEDIT : List Nat := [95, 95, 76, 73, 78, 75, 69, 68, 73, 84]

/-- State of a MachInfo handle: the fields of kern_mach.cpp's MachInfo that
the file reads and writes.  u64 fields are Nat (values < 2^64), the u32
symbol count is Nat, buffers are optional byte functions (None models a
null pointer), `running_mh` is the numeric address of the running header
(0 models null). -/
structure MachInfo where
  linkedit_buf : Option (Nat → Nat)
  file_buf : Option (Nat → Nat)
  linkedit_fileoff : Nat
  linkedit_size : Nat
  symboltable_fileoff : Nat
  symboltable_nr_symbols : Nat
  stringtable_fileoff : Nat
  disk_text_addr : Nat
  running_text_addr : Nat
  running_mh : Nat
  memory_size : Nat
  kaslr_slide : Nat
  kaslr_slide_set : Bool
  fat_offset : Nat
  isKernel : Bool

/-- String-table index (n_strx, first field of nlist_64) of symbol record
`i` in a symbol table starting at byte offset `symbolOff`. -/
def nlistStrx (buf : Nat → Nat) (symbolOff i : Nat) : Nat :=
  readU32 buf (symbolOff + i * 16)

/-- Static value (n_value, at byte 8 of nlist_64) of symbol record `i`. -/
def nlistValue (buf : Nat → Nat) (symbolOff i : Nat) : Nat :=
  readU64 buf (symbolOff + i * 16 + 8)

/-- Symbol-table offset relative to the linkedit buffer, as computed at
kern_mach.cpp:164 (wrapping 64-bit subtraction). -/
def symOffOf (mi : MachInfo) : Nat :=
  sub64 mi.symboltable_fileoff mi.linkedit_fileoff

/-- String-table offset relative to the linkedit buffer, as computed at
kern_mach.cpp:166 (wrapping 64-bit subtraction). -/
def strOffOf (mi : MachInfo) : Nat :=
  sub64 mi.stringtable_fileoff mi.linkedit_fileoff

/-- Scan loop of MachInfo::solveSymbol (kern_mach.cpp:171-181): walk the
remaining symbol records starting at index `i`, return the slide-adjusted
value of the first record whose string matches, else 0. -/
def solveScan (buf : Nat → Nat) (symbolOff stringOff slide : Nat)
    (symbol : List Nat) (i : Nat) : Nat → Nat
  | 0 => 0
  | rem + 1 =>
    if strncmpEq buf (stringOff + nlistStrx buf symbolOff i) symbol then
      (nlistValue buf symbolOff i + slide) % U64
    else
      solveScan buf symbolOff stringOff slide symbol (i + 1) rem

/-- MachInfo::solveSymbol (kern_mach.cpp:145-184), state-passing: the pair
holds the returned address (0 is the sentinel) and the handle state after
the call. -/
def solveSymbol (mi : MachInfo) (symbol : List Nat) : Nat × MachInfo :=
  match mi.linkedit_buf with
  | none => (0, mi)
  | some buf =>
    if mi.symboltable_fileoff == 0 then (0, mi)
    else if !mi.kaslr_slide_set then (0, mi)
    else if symOffOf mi > mi.symboltable_fileoff then (0, mi)
    else if strOffOf mi > mi.stringtable_fileoff then (0, mi)
    else
      (solveScan buf (symOffOf mi) (strOffOf mi) mi.kaslr_slide symbol 0
        mi.symboltable_nr_symbols, mi)

/-- Machine state visible to this file: raw memory as a byte function and
the base of the interrupt descriptor table as read by `sidt`
(MachInfo::getIDTAddress, kern_mach.cpp:425-429). -/
structure Machine where
  mem : Nat → Nat
  idtBase : Nat

/-- Modelled from the spec: the layout of `descriptor_idt` (declared in
kern_mach.hpp, which is not part of src/) — the 64-bit handler address is
reconstructed from three non-contiguous fields of the 16-byte descriptor
entry per the processor's encoding: offset_low (u16 at byte 0),
offset_middle (u16 at byte 6), offset_high (u32 at byte 8).  With that
layout this transcribes MachInfo::calculateInt80Address
(kern_mach.cpp:431-450): read descriptor 0x80 of the IDT and assemble
`(offset_high << 32) + (offset_middle << 16) + offset_low`. -/
def calculateInt80Address (mach : Machine) : Nat :=
  let d := mach.idtBase + 16 * 0x80
  readU32 mach.mem (d + 8) * 4294967296 + readU16 mach.mem (d + 6) * 65536
    + readU16 mach.mem d

/-- Backward-scan loop of MachInfo::findKernelBase (kern_mach.cpp:117-129):
check addresses `t+1, t, ..., 1` for the MH_MAGIC_64 tag followed by a
first segment command named "__TEXT" (segname lives at byte 40 past the
candidate header); return 0 when the scan reaches address 0. -/
def findKernelBaseFrom (mem : Nat → Nat) : Nat → Nat
  | 0 => 0
  | t + 1 =>
    if readU32 mem (t + 1) == MH_MAGIC_64
        && strncmpEq mem (t + 1 + 40) segnameTEXT then t + 1
    else findKernelBaseFrom mem t

/-- MachInfo::findKernelBase (kern_mach.cpp:111-131). -/
def findKernelBase (mach : Machine) : Nat :=
  findKernelBaseFrom mach.mem (calculateInt80Address mach)

/-- Command offsets visited by a load-command walk over `n` commands
starting at `addr`, each advancing by the command's declared cmdsize
(the u32 at byte 4 of the command). -/
def lcOffsets (mem : Nat → Nat) (addr : Nat) : Nat → List Nat
  | 0 => []
  | n + 1 => addr :: lcOffsets mem (addr + readU32 mem (addr + 4)) n

/-- Load-command loop of MachInfo::processMachHeader
(kern_mach.cpp:316-339): fold the remaining commands over the handle
state, recording __TEXT's vmaddr (byte 24 of a segment command),
__LINKEDIT's fileoff/filesize (bytes 40/48), and the LC_SYMTAB
symoff/nsyms/stroff (bytes 8/12/16). -/
def processLC (mi : MachInfo) (buf : Nat → Nat) (addr : Nat) : Nat → MachInfo
  | 0 => mi
  | n + 1 =>
    let cmd := readU32 buf addr
    let mi' :=
      if cmd == LC_SEGMENT_64 then
        if strncmpEq buf (addr + 8) segnameTEXT then
          { mi with disk_text_addr := readU64 buf (addr + 24) }
        else if strncmpEq buf (addr + 8) segnameLINKEDIT then
          { mi with linkedit_fileoff := readU64 buf (addr + 40),
                    linkedit_size := readU64 buf (addr + 48) }
        else mi
      else if cmd == LC_SYMTAB then
        { mi with symboltable_fileoff := readU32 buf (addr + 8),
                  symboltable_nr_symbols := readU32 buf (addr + 12),
                  stringtable_fileoff := readU32 buf (addr + 16) }
      else mi
    processLC mi' buf (addr + readU32 buf (addr + 4)) n

/-- MachInfo::processMachHeader (kern_mach.cpp:308-340): ncmds is the u32
at byte 16 of the 32-byte mach_header_64, the first load command follows
the header. -/
def processMachHeader (mi : MachInfo) (buf : Nat → Nat) : MachInfo :=
  processLC mi buf 32 (readU32 buf 16)

/-- Load-command loop of MachInfo::getRunningAddresses
(kern_mach.cpp:356-369): return the vmaddr of the first LC_SEGMENT_64
named "__TEXT" (the loop breaks at the first hit), or none after ncmds
commands. -/
def findTextWalk (mem : Nat → Nat) (addr : Nat) : Nat → Option Nat
  | 0 => none
  | n + 1 =>
    if readU32 mem addr == LC_SEGMENT_64
        && strncmpEq mem (addr + 8) segnameTEXT then
      some (readU64 mem (addr + 24))
    else findTextWalk mem (addr + readU32 mem (addr + 4)) n

/-- MachInfo::getRunningAddresses (kern_mach.cpp:343-388), state-passing:
the `slide` parameter is the externally supplied base (0 = discover the
base via findKernelBase); the pair holds the kern_return_t and the handle
state after the call. -/
def getRunningAddresses (mach : Machine) (mi : MachInfo)
    (slide size : Nat) : Nat × MachInfo :=
  if mi.kaslr_slide_set then (KERN_SUCCESS, mi)
  else
    let mi1 := if size > 0 then { mi with memory_size := size } else mi
    let base := if slide != 0 then slide else findKernelBase mach
    let mi2 :=
      if base != 0 then
        match findTextWalk mach.mem (base + 32) (readU32 mach.mem (base + 16)) with
        | some v => { mi1 with running_text_addr := v, running_mh := base }
        | none => mi1
      else mi1
    if mi2.running_text_addr != 0 && mi2.running_mh != 0 then
      if slide == 0 then
        (KERN_SUCCESS, { mi2 with
          kaslr_slide := sub64 mi2.running_text_addr mi2.disk_text_addr,
          kaslr_slide_set := true })
      else
        (KERN_SUCCESS, { mi2 with kaslr_slide := slide, kaslr_slide_set := true })
    else
      (KERN_FAILURE, mi2)

/-- Outcome of the collaborators MachInfo::readFileData relies on: whether
uio_create yields a uio, the errors of uio_addiov and VNOP_READ, and the
residual count uio_resid reports after the read. -/
structure UioEnv where
  uioOk : Bool
  addiovErr : Nat
  readErr : Nat
  resid : Nat

/-- MachInfo::readFileData (kern_mach.cpp:186-215): note that when
uio_create yields null the function returns its `error` local which still
holds the initial value 0. -/
def readFileData (env : UioEnv) : Nat :=
  if !env.uioOk then 0
  else if env.addiovErr != 0 then env.addiovErr
  else if env.readErr != 0 then env.readErr
  else if env.resid != 0 then EINVAL
  else 0

/-- MachInfo::readLinkedit (kern_mach.cpp:283-305): allocate the linkedit
buffer (allocOk models Buffer::create's outcome; the bytes written into
the buffer are not needed by the success condition being verified), then
either read linkedit_size bytes from the file through readFileData or
copy them from the resident file_buf. -/
def readLinkedit (allocOk : Bool) (env : UioEnv) (mi : MachInfo) : Nat :=
  if !allocOk then KERN_FAILURE
  else
    match mi.file_buf with
    | none => if readFileData env != 0 then KERN_FAILURE else KERN_SUCCESS
    | some _ => KERN_SUCCESS

/-- Per-candidate outcomes of the collaborators used by MachInfo::init's
path loop (paths are identified by their index): whether vnode_lookup
succeeds, whether readMachHeader succeeds, and whether the candidate's
UUID matches the running kernel (isCurrentKernel). -/
structure InitEnv where
  lookupOk : Nat → Bool
  readOk : Nat → Bool
  currentMatch : Nat → Bool

/-- Candidate loop of MachInfo::init (kern_mach.cpp:49-68): returns the
found path (if any), the list of paths whose vnode_lookup succeeded (a
vnode reference was acquired), and the list of paths whose vnode was
released by vnode_put inside the loop.  Transcription note: vnode_put is
called only on the isKernel identity-mismatch branch (line 58); when
readMachHeader fails after a successful lookup no vnode_put occurs. -/
def initLoop (env : InitEnv) (isKernel : Bool) :
    List Nat → Option Nat × List Nat × List Nat
  | [] => (none, [], [])
  | p :: rest =>
    if env.lookupOk p then
      if env.readOk p then
        if isKernel && !env.currentMatch p then
          let r := initLoop env isKernel rest
          (r.1, p :: r.2.1, p :: r.2.2)
        else
          (some p, [p], [])
      else
        let r := initLoop env isKernel rest
        (r.1, p :: r.2.1, r.2.2)
    else initLoop env isKernel rest

/-- Vnode accounting of MachInfo::init (kern_mach.cpp:49-91): run the
candidate loop; when a candidate was found its vnode is released by the
unconditional vnode_put at line 91 after linkedit reading. -/
def initVnodes (env : InitEnv) (isKernel : Bool) (paths : List Nat) :
    Option Nat × List Nat × List Nat :=
  let r := initLoop env isKernel paths
  match r.1 with
  | some p => (r.1, r.2.1, r.2.2 ++ [p])
  | none => r

/-- Events observable on the processor during PrivilegeToggle calls:
interrupt disable (cli), interrupt enable (sti), and a write of a value
to CR0. -/
inductive Ev where
  | cli : Ev
  | sti : Ev
  | wr : Nat → Ev
deriving DecidableEq

/-- Processor state for the write-protection toggle: the current CR0
value, the interrupt flag, and the hardware's response to a CR0 write
(the value CR0 actually takes when `v` is written — writing may fail to
stick, which is what the verification re-read is for). -/
structure HW where
  cr0 : Nat
  ints : Bool
  writeEffect : Nat → Nat

/-- CR0 write (set_cr0): CR0 becomes whatever the hardware makes of the
written value, reduced to 64 bits. -/
def set_cr0 (hw : HW) (v : Nat) : HW :=
  { hw with cr0 := hw.writeEffect v % U64 }

/-- MachInfo::setWPBit (kern_mach.cpp:452-472): read CR0, set or clear
the WP bit, write it back, and verify the bit's new state by re-reading
CR0; returns the kern_return_t, the new processor state, and the trace
of CR0 writes. -/
def setWPBit (hw : HW) (enable : Bool) : Nat × HW × List Ev :=
  let cr0 := hw.cr0
  let v := if enable then cr0 ||| CR0_WP else cr0 &&& (U64 - 1 - CR0_WP)
  let hw1 := set_cr0 hw v
  let ok := if enable then hw1.cr0 &&& CR0_WP != 0 else hw1.cr0 &&& CR0_WP == 0
  (if ok then KERN_SUCCESS else KERN_FAILURE, hw1, [Ev.wr v])

/-- MachInfo::setKernelWriting (kern_mach.cpp:133-143): when enabling
writing, cli before clearing WP through setWPBit(!enable); on setWPBit
failure force `enable` to false and report failure; sti whenever the
(possibly forced) `enable` is false. -/
def setKernelWriting (hw : HW) (enable : Bool) : Nat × HW × List Ev :=
  let p1 : HW × List Ev :=
    if enable then ({ hw with ints := false }, [Ev.cli]) else (hw, [])
  let r := setWPBit p1.1 (!enable)
  let res := if r.1 != KERN_SUCCESS then KERN_FAILURE else KERN_SUCCESS
  let enable2 := if r.1 != KERN_SUCCESS then false else enable
  let p3 : HW × List Ev :=
    if !enable2 then ({ r.2.1 with ints := true }, [Ev.sti]) else (r.2.1, [])
  (res, p3.1, p1.2 ++ r.2.2 ++ p3.2)

/-- Handle with every field empty or zero, base of the concrete examples. -/
def mi0 : MachInfo :=
  { linkedit_buf := none, file_buf := none, linkedit_fileoff := 0,
    linkedit_size := 0, symboltable_fileoff := 0,
    symboltable_nr_symbols := 0, stringtable_fileoff := 0,
    disk_text_addr := 0, running_text_addr := 0, running_mh := 0,
    memory_size := 0, kaslr_slide := 0, kaslr_slide_set := false,
    fat_offset := 0, isKernel := false }

/-- Bytes of the symbol name "foo". -/
def fooName : List Nat := [102, 111, 111]

/-- Linkedit bytes holding one nlist_64 record at offset 16 (n_strx = 4,
n_value = 0x1010) and a string table at offset 48 whose index 4 holds
"foo\0" (so the string lives at offset 52). -/
def fooTable : List Nat :=
  List.replicate 16 0 ++ [4, 0, 0, 0] ++ [0, 0, 0, 0]
    ++ [0x10, 0x10, 0, 0, 0, 0, 0, 0]
    ++ List.replicate 16 0 ++ [0, 0, 0, 0] ++ [102, 111, 111, 0]

/-- Byte function over fooTable. -/
def fooBuf : Nat → Nat := memOfList fooTable

/-- Handle of the C1 scenario: static text 0x1000, runtime text 0x5000,
slide 0x4000 known, one symbol "foo" of static value 0x1010. -/
def miFoo : MachInfo :=
  { mi0 with linkedit_buf := some fooBuf, symboltable_fileoff := 16,
             symboltable_nr_symbols := 1, stringtable_fileoff := 48,
             disk_text_addr := 0x1000, running_text_addr := 0x5000,
             running_mh := 1, kaslr_slide := 0x4000, kaslr_slide_set := true }

/-- Bytes of the symbol name "bar". -/
def barName : List Nat := [98, 97, 114]

/-- Linkedit bytes like fooTable but with n_value = 0. -/
def zeroTable : List Nat :=
  List.replicate 16 0 ++ [4, 0, 0, 0] ++ [0, 0, 0, 0]
    ++ [0, 0, 0, 0, 0, 0, 0, 0]
    ++ List.replicate 16 0 ++ [0, 0, 0, 0] ++ [102, 111, 111, 0]

/-- Byte function over zeroTable. -/
def zeroBuf : Nat → Nat := memOfList zeroTable

/-- Handle whose single symbol "foo" has static value 0 while the known
slide is 0, so the matching record's slide-adjusted address is 0. -/
def miZero : MachInfo :=
  { mi0 with linkedit_buf := some zeroBuf, symboltable_fileoff := 16,
             symboltable_nr_symbols := 1, stringtable_fileoff := 48,
             kaslr_slide := 0, kaslr_slide_set := true }

/-- Handle whose symbol-table file offset (8) is below the linkedit file
offset (16), triggering the underflow guard. -/
def miUnder : MachInfo :=
  { mi0 with linkedit_buf := some (fun _ => 0), linkedit_fileoff := 16,
             symboltable_fileoff := 8, symboltable_nr_symbols := 3,
             stringtable_fileoff := 32, kaslr_slide_set := true }

/-- Mach-O header bytes of a running image: magic, ncmds = 1, one
LC_SEGMENT_64 command named "__TEXT" with vmaddr 0x9000. -/
def kextHeader : List Nat :=
  [0xcf, 0xfa, 0xed, 0xfe] ++ List.replicate 12 0
    ++ [1, 0, 0, 0] ++ List.replicate 12 0
    ++ [0x19, 0, 0, 0] ++ [72, 0, 0, 0]
    ++ [95, 95, 84, 69, 88, 84] ++ List.replicate 10 0
    ++ [0, 0x90, 0, 0, 0, 0, 0, 0]

/-- Machine whose memory maps kextHeader at address 0x5000. -/
def kextMach : Machine := { mem := memOfListAt 0x5000 kextHeader, idtBase := 0 }

/-- Handle with on-disk text address 0x1000 and no slide yet. -/
def miKext : MachInfo := { mi0 with disk_text_addr := 0x1000 }

/-- Kernel memory for base discovery: the IDT descriptor for interrupt
0x80 (at idtBase 0 this is address 0x800) encodes the handler stub
address 0x208; scanning backward from 0x208 finds a MH_MAGIC_64 header
at 0x200 whose first segment command (at 0x220) is "__TEXT" with vmaddr
0x5000 (at 0x238). -/
def kernMem : Nat → Nat := fun a =>
  if a = 0x200 then 0xcf else if a = 0x201 then 0xfa
  else if a = 0x202 then 0xed else if a = 0x203 then 0xfe
  else if a = 0x210 then 1
  else if a = 0x220 then 0x19 else if a = 0x224 then 72
  else if a = 0x228 then 95 else if a = 0x229 then 95
  else if a = 0x22a then 84 else if a = 0x22b then 69
  else if a = 0x22c then 88 else if a = 0x22d then 84
  else if a = 0x238 then 0 else if a = 0x239 then 0x50
  else if a = 0x800 then 8 else if a = 0x801 then 2
  else 0

/-- Machine built on kernMem with the IDT at address 0. -/
def kernMach : Machine := { mem := kernMem, idtBase := 0 }

/-- Handle for base discovery with static text address 0x1000. -/
def miKern : MachInfo := { mi0 with disk_text_addr := 0x1000, isKernel := true }

/-- Handle whose slide is already known (value 7). -/
def miSet : MachInfo := { mi0 with kaslr_slide := 7, kaslr_slide_set := true }

/-- Header bytes with ncmds = 2 whose first load command is an LC_SYMTAB
declaring cmdsize = 0 (symoff 7, nsyms 1, stroff 9). -/
def badHeader : List Nat :=
  [0xcf, 0xfa, 0xed, 0xfe] ++ List.replicate 12 0
    ++ [2, 0, 0, 0] ++ List.replicate 12 0
    ++ [2, 0, 0, 0] ++ [0, 0, 0, 0]
    ++ [7, 0, 0, 0] ++ [1, 0, 0, 0] ++ [9, 0, 0, 0]

/-- Byte function over badHeader. -/
def badBuf : Nat → Nat := memOfList badHeader

/-- Candidate environment of the init leak witness: every vnode_lookup
succeeds, readMachHeader fails on path 0 and succeeds on path 1, and
path 1 identity-matches. -/
def envLeak : InitEnv :=
  { lookupOk := fun _ => true, readOk := fun p => p != 0,
    currentMatch := fun _ => true }

/-- Candidate environment of the spec scenario: vnode_lookup fails on
path 0 (the bad path) and path 1 parses and identity-matches. -/
def envGood : InitEnv :=
  { lookupOk := fun p => p != 0, readOk := fun _ => true,
    currentMatch := fun _ => true }

/-- Environment in which uio_create yields null while uio_resid would
report 999 residual bytes. -/
def uioFailEnv : UioEnv :=
  { uioOk := false, addiovErr := 0, readErr := 0, resid := 999 }

theorem cstrBytesAt_cons (buf : Nat → Nat) (off b : Nat) (bs : List Nat) :
    cstrBytesAt buf off (b :: bs) ↔
      byteAt buf off = b ∧ cstrBytesAt buf (off + 1) bs := by
  have hfun : ((fun k => byteAt buf (off + k)) ∘ Nat.succ)
      = fun k => byteAt buf (off + 1 + k) := by
    funext k
    simp only [Function.comp]
    congr 1
    omega
  unfold cstrBytesAt
  rw [List.length_cons, List.range_succ_eq_map, List.map_cons, List.map_map,
    hfun]
  simp [List.cons.injEq]

theorem strncmpEq_iff (s : List Nat) : ∀ (buf : Nat → Nat) (off : Nat),
    strncmpEq buf off s = true ↔ cstrBytesAt buf off s := by
  induction s with
  | nil =>
    intro buf off
    unfold strncmpEq cstrBytesAt
    simp [List.range_succ]
  | cons b bs ih =>
    intro buf off
    rw [cstrBytesAt_cons]
    unfold strncmpEq
    simp [ih buf (off + 1)]

theorem sub64_of_le (a b : Nat) (hba : b ≤ a) (ha : a < U64) :
    sub64 a b = a - b := by
  have hb : b < U64 := lt_of_le_of_lt hba ha
  unfold sub64
  rw [Nat.mod_eq_of_lt ha, Nat.mod_eq_of_lt hb]
  have h1 : a + U64 - b = (a - b) + U64 := by omega
  rw [h1, Nat.add_mod_right]
  exact Nat.mod_eq_of_lt (by omega)

theorem sub64_gt_of_lt (a b : Nat) (hab : a < b) (hb : b < U64) :
    a < sub64 a b := by
  have ha : a < U64 := lt_trans hab hb
  unfold sub64
  rw [Nat.mod_eq_of_lt ha, Nat.mod_eq_of_lt hb]
  have h1 : a + U64 - b < U64 := by omega
  rw [Nat.mod_eq_of_lt h1]
  omega

theorem solveScan_first (buf : Nat → Nat) (symbolOff stringOff slide : Nat)
    (symbol : List Nat) :
    ∀ (rem i j : Nat), i ≤ j → j < i + rem →
      (∀ k, i ≤ k → k < j →
        strncmpEq buf (stringOff + nlistStrx buf symbolOff k) symbol = false) →
      strncmpEq buf (stringOff + nlistStrx buf symbolOff j) symbol = true →
      solveScan buf symbolOff stringOff slide symbol i rem
        = (nlistValue buf symbolOff j + slide) % U64 := by
  intro rem
  induction rem with
  | zero =>
    intro i j hij hlt
    omega
  | succ n ih =>
    intro i j hij hlt hnone hj
    unfold solveScan
    by_cases hi : strncmpEq buf (stringOff + nlistStrx buf symbolOff i) symbol
      = true
    · rcases Nat.lt_or_ge i j with hl | hg
      · rw [hnone i (Nat.le_refl i) hl] at hi
        exact absurd hi (by simp)
      · have hej : i = j := Nat.le_antisymm hij hg
        subst hej
        simp [hi]
    · have hne : i ≠ j := fun h => hi (h ▸ hj)
      rw [Bool.not_eq_true] at hi
      rw [hi]
      simp only [Bool.false_eq_true, if_false]
      exact ih (i + 1) j (by omega) (by omega)
        (fun k hk1 hk2 => hnone k (by omega) hk2) hj

theorem solveScan_none (buf : Nat → Nat) (symbolOff stringOff slide : Nat)
    (symbol : List Nat) :
    ∀ (rem i : Nat),
      (∀ k, i ≤ k → k < i + rem →
        strncmpEq buf (stringOff + nlistStrx buf symbolOff k) symbol = false) →
      solveScan buf symbolOff stringOff slide symbol i rem = 0 := by
  intro rem
  induction rem with
  | zero =>
    intro i _
    rfl
  | succ n ih =>
    intro i hnone
    unfold solveScan
    rw [hnone i (Nat.le_refl i) (by omega)]
    simp only [Bool.false_eq_true, if_false]
    exact ih (i + 1) (fun k hk1 hk2 => hnone k (by omega) (by omega))

/-- C10: solveSymbol is read-only on the handle — for every handle state
and every symbol name the handle returned alongside the address is the
handle passed in, every field unchanged, whether an address or the 0
sentinel results. -/
theorem solveSymbol_frame (mi : MachInfo) (symbol : List Nat) :
    (solveSymbol mi symbol).2 = mi := by
  unfold solveSymbol
  cases mi.linkedit_buf with
  | none => rfl
  | some buf =>
    repeat' split
    all_goals rfl

/-- C6: whenever the buffer-relative offset subtraction would underflow —
symboltable_fileoff below linkedit_fileoff, or stringtable_fileoff below
linkedit_fileoff — solveSymbol returns the 0 sentinel with the handle
unchanged, for every possible buffer content, so the wrapped-around huge
offset is never dereferenced. -/
theorem solveSymbol_underflow_guard (mi : MachInfo) (buf : Nat → Nat)
    (symbol : List Nat)
    (hbuf : mi.linkedit_buf = some buf)
    (hlt1 : mi.symboltable_fileoff < U64)
    (hlt3 : mi.linkedit_fileoff < U64) :
    (mi.symboltable_fileoff < mi.linkedit_fileoff →
      solveSymbol mi symbol = (0, mi)) ∧
    (mi.linkedit_fileoff ≤ mi.symboltable_fileoff →
      mi.stringtable_fileoff < mi.linkedit_fileoff →
      solveSymbol mi symbol = (0, mi)) := by
  constructor
  · intro h
    have hg : symOffOf mi > mi.symboltable_fileoff :=
      sub64_gt_of_lt _ _ h hlt3
    unfold solveSymbol
    rw [hbuf]
    by_cases h0 : (mi.symboltable_fileoff == 0) = true
    · simp [h0]
    · cases hset : mi.kaslr_slide_set
      · simp [h0, hset]
      · simp [h0, hset, hg]
  · intro h1 h2
    have hns : ¬ symOffOf mi > mi.symboltable_fileoff := by
      rw [symOffOf, sub64_of_le _ _ h1 hlt1]
      omega
    have hg : strOffOf mi > mi.stringtable_fileoff :=
      sub64_gt_of_lt _ _ h2 hlt3
    unfold solveSymbol
    rw [hbuf]
    by_cases h0 : (mi.symboltable_fileoff == 0) = true
    · simp [h0]
    · cases hset : mi.kaslr_slide_set
      · simp [h0, hset]
      · simp [h0, hset, hns, hg]

/-- Closed instance of C6: a handle with symboltable_fileoff = 8 below
linkedit_fileoff = 16 resolves every name to the 0 sentinel. -/
theorem solveSymbol_underflow_guard_witness :
    solveSymbol miUnder fooName = (0, miUnder) :=
  (solveSymbol_underflow_guard miUnder (fun _ => 0) fooName rfl
    (by norm_num [miUnder, mi0, U64]) (by norm_num [miUnder, mi0, U64])).1
    (by norm_num [miUnder, mi0])

/-- C1: with a loaded linkedit buffer, a recorded symbol table and a known
slide, solveSymbol scans the symbolCount records in order and returns
staticValue + slide for the first record whose stored C string equals the
requested name exactly, terminator included (cstrBytesAt), so a request
never matches a longer symbol sharing the same prefix. -/
theorem solveSymbol_first_match (mi : MachInfo) (buf : Nat → Nat)
    (symbol : List Nat) (j : Nat)
    (hbuf : mi.linkedit_buf = some buf)
    (hsy0 : mi.symboltable_fileoff ≠ 0)
    (hset : mi.kaslr_slide_set = true)
    (hle1 : mi.linkedit_fileoff ≤ mi.symboltable_fileoff)
    (hle2 : mi.linkedit_fileoff ≤ mi.stringtable_fileoff)
    (hlt1 : mi.symboltable_fileoff < U64)
    (hlt2 : mi.stringtable_fileoff < U64)
    (hj : j < mi.symboltable_nr_symbols)
    (hmatch : cstrBytesAt buf
      (strOffOf mi + nlistStrx buf (symOffOf mi) j) symbol)
    (hfirst : ∀ k, k < j →
      ¬ cstrBytesAt buf (strOffOf mi + nlistStrx buf (symOffOf mi) k) symbol)
    (hsum : nlistValue buf (symOffOf mi) j + mi.kaslr_slide < U64) :
    solveSymbol mi symbol
      = (nlistValue buf (symOffOf mi) j + mi.kaslr_slide, mi) := by
  have h0 : (mi.symboltable_fileoff == 0) = false := by
    simp [hsy0]
  have hns1 : ¬ symOffOf mi > mi.symboltable_fileoff := by
    rw [symOffOf, sub64_of_le _ _ hle1 hlt1]
    omega
  have hns2 : ¬ strOffOf mi > mi.stringtable_fileoff := by
    rw [strOffOf, sub64_of_le _ _ hle2 hlt2]
    omega
  have hj' : strncmpEq buf
      (strOffOf mi + nlistStrx buf (symOffOf mi) j) symbol = true :=
    (strncmpEq_iff symbol buf _).mpr hmatch
  have hfirst' : ∀ k, 0 ≤ k → k < j →
      strncmpEq buf
        (strOffOf mi + nlistStrx buf (symOffOf mi) k) symbol = false := by
    intro k _ hk
    have hnk := hfirst k hk
    rw [← strncmpEq_iff symbol buf _] at hnk
    cases hb : strncmpEq buf
      (strOffOf mi + nlistStrx buf (symOffOf mi) k) symbol
    · rfl
    · exact absurd hb hnk
  have hscan : solveScan buf (symOffOf mi) (strOffOf mi) mi.kaslr_slide
      symbol 0 mi.symboltable_nr_symbols
        = (nlistValue buf (symOffOf mi) j + mi.kaslr_slide) % U64 :=
    solveScan_first buf _ _ _ symbol mi.symboltable_nr_symbols 0 j
      (Nat.zero_le j) (by omega) hfirst' hj'
  unfold solveSymbol
  rw [hbuf]
  simp only [h0, hset, Bool.not_true, Bool.false_eq_true, if_false,
    if_neg hns1, if_neg hns2, hscan, Nat.mod_eq_of_lt hsum]

/-- Closed instance of C1, the spec scenario: staticTextAddress 0x1000,
runtimeTextAddress 0x5000 (slide 0x4000), symbol "foo" of static value
0x1010 — resolve("foo") returns 0x5010. -/
theorem solveSymbol_first_match_witness :
    miFoo.disk_text_addr = 0x1000 ∧ miFoo.running_text_addr = 0x5000 ∧
    miFoo.kaslr_slide = 0x4000 ∧
    solveSymbol miFoo fooName = (0x5010, miFoo) := by
  refine ⟨by decide, by decide, by decide, ?_⟩
  have h := solveSymbol_first_match miFoo fooBuf fooName 0 rfl
    (by decide) (by decide) (by decide) (by decide)
    (by decide) (by decide) (by decide) (by decide)
    (fun k hk => absurd hk (Nat.not_lt_zero k)) (by decide)
  have h2 : nlistValue fooBuf (symOffOf miFoo) 0 + miFoo.kaslr_slide
      = 0x5010 := by decide
  rw [h, h2]

theorem strncmpEq_eq_false_of_not (buf : Nat → Nat) (off : Nat)
    (s : List Nat) (h : ¬ cstrBytesAt buf off s) :
    strncmpEq buf off s = false := by
  cases hb : strncmpEq buf off s
  · rfl
  · exact absurd ((strncmpEq_iff s buf off).mp hb) h

theorem solveSymbol_some (mi : MachInfo) (buf : Nat → Nat)
    (hbuf : mi.linkedit_buf = some buf) (symbol : List Nat) :
    solveSymbol mi symbol =
      if mi.symboltable_fileoff == 0 then (0, mi)
      else if !mi.kaslr_slide_set then (0, mi)
      else if symOffOf mi > mi.symboltable_fileoff then (0, mi)
      else if strOffOf mi > mi.stringtable_fileoff then (0, mi)
      else
        (solveScan buf (symOffOf mi) (strOffOf mi) mi.kaslr_slide symbol 0
          mi.symboltable_nr_symbols, mi) := by
  unfold solveSymbol
  rw [hbuf]

/-- Counterexample to C2 as stated: a handle meeting every stated
precondition (buffer loaded, symbol-table offset recorded, slide known)
whose single record matches "foo" exactly, yet solveSymbol returns 0 —
the record's static value is 0 and the slide is 0, so the slide-adjusted
address is not nonzero. -/
theorem solveSymbol_nonzero_counterexample :
    miZero.linkedit_buf.isSome = true ∧
    miZero.symboltable_fileoff ≠ 0 ∧
    miZero.kaslr_slide_set = true ∧
    miZero.symboltable_nr_symbols = 1 ∧
    cstrBytesAt zeroBuf
      (strOffOf miZero + nlistStrx zeroBuf (symOffOf miZero) 0) fooName ∧
    (solveSymbol miZero fooName).1 = 0 := by
  decide

/-- C2 amended: solveSymbol returns the 0 sentinel when the linkedit
buffer is not loaded, the symbol-table offset is zero, the slide is not
yet known, the symbol count is zero, or a full scan of all records finds
no exact match; when under the stated preconditions exactly one record
matches, it returns that record's staticValue + slide reduced mod 2^64 —
an address that is nonzero exactly when staticValue + slide is not a
multiple of 2^64 (the original claim's unconditional "nonzero" fails when
the sum is 0). -/
theorem solveSymbol_sentinel (mi : MachInfo) (buf : Nat → Nat)
    (symbol : List Nat) :
    (mi.linkedit_buf = none → solveSymbol mi symbol = (0, mi)) ∧
    (mi.symboltable_fileoff = 0 → solveSymbol mi symbol = (0, mi)) ∧
    (mi.kaslr_slide_set = false → solveSymbol mi symbol = (0, mi)) ∧
    (mi.symboltable_nr_symbols = 0 → solveSymbol mi symbol = (0, mi)) ∧
    (mi.linkedit_buf = some buf →
      (∀ k, k < mi.symboltable_nr_symbols →
        ¬ cstrBytesAt buf
          (strOffOf mi + nlistStrx buf (symOffOf mi) k) symbol) →
      solveSymbol mi symbol = (0, mi)) ∧
    (∀ j, mi.linkedit_buf = some buf →
      mi.symboltable_fileoff ≠ 0 →
      mi.kaslr_slide_set = true →
      mi.linkedit_fileoff ≤ mi.symboltable_fileoff →
      mi.linkedit_fileoff ≤ mi.stringtable_fileoff →
      mi.symboltable_fileoff < U64 →
      mi.stringtable_fileoff < U64 →
      j < mi.symboltable_nr_symbols →
      cstrBytesAt buf (strOffOf mi + nlistStrx buf (symOffOf mi) j) symbol →
      (∀ k, k < mi.symboltable_nr_symbols → k ≠ j →
        ¬ cstrBytesAt buf
          (strOffOf mi + nlistStrx buf (symOffOf mi) k) symbol) →
      (solveSymbol mi symbol).1
        = (nlistValue buf (symOffOf mi) j + mi.kaslr_slide) % U64) := by
  refine ⟨?_, ?_, ?_, ?_, ?_, ?_⟩
  · intro h
    unfold solveSymbol
    rw [h]
  · intro h
    unfold solveSymbol
    cases hb : mi.linkedit_buf
    · rfl
    · simp [h]
  · intro h
    unfold solveSymbol
    cases hb : mi.linkedit_buf
    · rfl
    · simp [h]
  · intro h
    unfold solveSymbol
    cases hb : mi.linkedit_buf
    · rfl
    · repeat' split
      all_goals (try rfl)
      rw [h]
      rfl
  · intro hbuf hnone
    have hnone' : ∀ k, 0 ≤ k → k < 0 + mi.symboltable_nr_symbols →
        strncmpEq buf
          (strOffOf mi + nlistStrx buf (symOffOf mi) k) symbol = false :=
      fun k _ hk =>
        strncmpEq_eq_false_of_not buf _ symbol (hnone k (by omega))
    have hscan : solveScan buf (symOffOf mi) (strOffOf mi) mi.kaslr_slide
        symbol 0 mi.symboltable_nr_symbols = 0 :=
      solveScan_none buf _ _ _ symbol mi.symboltable_nr_symbols 0 hnone'
    rw [solveSymbol_some mi buf hbuf symbol]
    split_ifs
    · rfl
    · rfl
    · rfl
    · rfl
    · rw [hscan]
  · intro j hbuf hsy0 hset hle1 hle2 hlt1 hlt2 hj hmatch hothers
    have h0 : (mi.symboltable_fileoff == 0) = false := by
      simp [hsy0]
    have hns1 : ¬ symOffOf mi > mi.symboltable_fileoff := by
      rw [symOffOf, sub64_of_le _ _ hle1 hlt1]
      omega
    have hns2 : ¬ strOffOf mi > mi.stringtable_fileoff := by
      rw [strOffOf, sub64_of_le _ _ hle2 hlt2]
      omega
    have hj' : strncmpEq buf
        (strOffOf mi + nlistStrx buf (symOffOf mi) j) symbol = true :=
      (strncmpEq_iff symbol buf _).mpr hmatch
    have hfirst' : ∀ k, 0 ≤ k → k < j →
        strncmpEq buf
          (strOffOf mi + nlistStrx buf (symOffOf mi) k) symbol = false :=
      fun k _ hk =>
        strncmpEq_eq_false_of_not buf _ symbol
          (hothers k (by omega) (by omega))
    have hscan : solveScan buf (symOffOf mi) (strOffOf mi) mi.kaslr_slide
        symbol 0 mi.symboltable_nr_symbols
          = (nlistValue buf (symOffOf mi) j + mi.kaslr_slide) % U64 :=
      solveScan_first buf _ _ _ symbol mi.symboltable_nr_symbols 0 j
        (Nat.zero_le j) (by omega) hfirst' hj'
    unfold solveSymbol
    rw [hbuf]
    simp only [h0, hset, Bool.not_true, Bool.false_eq_true, if_false,
      if_neg hns1, if_neg hns2, hscan]

/-- Closed instance of C2's no-match clause: resolving "bar" against a
handle whose only symbol is "foo" yields the 0 sentinel. -/
theorem solveSymbol_sentinel_witness :
    solveSymbol miFoo barName = (0, miFoo) :=
  (solveSymbol_sentinel miFoo fooBuf barName).2.2.2.2.1 rfl (by decide)

/-- Counterexample to C3 as stated: supplying base 0x5000 for an image
whose runtime "__TEXT" address is 0x9000 and on-disk text address is
0x1000 makes getRunningAddresses record slide 0x5000 — the supplied value
itself — while the displacement measured the same way as the discovered
case (runtime minus static) would be 0x8000. -/
theorem getRunningAddresses_supplied_counterexample :
    (getRunningAddresses kextMach miKext 0x5000 0).1 = KERN_SUCCESS ∧
    (getRunningAddresses kextMach miKext 0x5000 0).2.running_text_addr
      = 0x9000 ∧
    (getRunningAddresses kextMach miKext 0x5000 0).2.disk_text_addr
      = 0x1000 ∧
    sub64 (getRunningAddresses kextMach miKext 0x5000 0).2.running_text_addr
      (getRunningAddresses kextMach miKext 0x5000 0).2.disk_text_addr
      = 0x8000 ∧
    (getRunningAddresses kextMach miKext 0x5000 0).2.kaslr_slide = 0x5000 ∧
    (0x5000 : Nat) ≠ 0x8000 := by
  decide

/-- C3 amended: with the slide not yet known, when no base is supplied
(parameter 0) the recorded slide is runtimeTextAddress − staticTextAddress
(64-bit wrapping subtraction) for the runtime text address found at the
discovered base; when a base is supplied the recorded slide is the
supplied value itself, not a measured displacement. -/
theorem getRunningAddresses_slide (mach : Machine) (mi : MachInfo)
    (sz v : Nat) (hset : mi.kaslr_slide_set = false) (hv : v ≠ 0) :
    (∀ b, b ≠ 0 → findKernelBase mach = b →
      findTextWalk mach.mem (b + 32) (readU32 mach.mem (b + 16)) = some v →
      (getRunningAddresses mach mi 0 sz).1 = KERN_SUCCESS ∧
      (getRunningAddresses mach mi 0 sz).2.running_text_addr = v ∧
      (getRunningAddresses mach mi 0 sz).2.kaslr_slide
        = sub64 v mi.disk_text_addr) ∧
    (∀ s, s ≠ 0 →
      findTextWalk mach.mem (s + 32) (readU32 mach.mem (s + 16)) = some v →
      (getRunningAddresses mach mi s sz).1 = KERN_SUCCESS ∧
      (getRunningAddresses mach mi s sz).2.kaslr_slide = s) := by
  have hv' : (v != 0) = true := by simp [hv]
  constructor
  · intro b hb hfkb hwalk
    have hb' : (b != 0) = true := by simp [hb]
    by_cases hsz : sz > 0 <;>
      simp [getRunningAddresses, hset, hsz, hfkb, hb', hwalk, hv']
  · intro s hs hwalk
    have hs' : (s != 0) = true := by simp [hs]
    have hs2 : (s == 0) = false := by simp [hs]
    by_cases hsz : sz > 0 <;>
      simp [getRunningAddresses, hset, hsz, hs', hs2, hwalk, hv']

/-- Closed instance of C3 (amended): base discovery on kernMach finds the
header at 0x200 whose runtime text address 0x5000 against disk text
0x1000 gives slide 0x4000, while the supplied-base call on kextMach
records exactly the supplied 0x5000. -/
theorem getRunningAddresses_slide_witness :
    (getRunningAddresses kernMach miKern 0 0).2.kaslr_slide = 0x4000 ∧
    (getRunningAddresses kextMach miKext 0x5000 0).2.kaslr_slide
      = 0x5000 := by
  constructor
  · have h := (getRunningAddresses_slide kernMach miKern 0 0x5000 rfl
      (by decide)).1 0x200 (by decide) (by decide) (by decide)
    rw [h.2.2]
    decide
  · exact ((getRunningAddresses_slide kextMach miKext 0 0x9000 rfl
      (by decide)).2 0x5000 (by decide) (by decide)).2

/-- C9: getRunningAddresses is idempotent — a handle whose slide is known
is returned unchanged with success for every machine state (so nothing is
re-discovered or re-walked), and after any successful call a second call
on any machine returns success with the state, in particular the cached
slide, unchanged. -/
theorem getRunningAddresses_idempotent :
    (∀ (mach : Machine) (mi : MachInfo) (s sz : Nat),
      mi.kaslr_slide_set = true →
      getRunningAddresses mach mi s sz = (KERN_SUCCESS, mi)) ∧
    (∀ (mach mach' : Machine) (mi : MachInfo) (s sz s' sz' : Nat),
      (getRunningAddresses mach mi s sz).1 = KERN_SUCCESS →
      getRunningAddresses mach' (getRunningAddresses mach mi s sz).2 s' sz'
        = (KERN_SUCCESS, (getRunningAddresses mach mi s sz).2)) := by
  have hdone : ∀ (mach : Machine) (mi : MachInfo) (s sz : Nat),
      mi.kaslr_slide_set = true →
      getRunningAddresses mach mi s sz = (KERN_SUCCESS, mi) := by
    intro mach mi s sz h
    simp [getRunningAddresses, h]
  have hcases : ∀ (mach : Machine) (mi : MachInfo) (s sz : Nat),
      (getRunningAddresses mach mi s sz).1 = KERN_FAILURE ∨
      (getRunningAddresses mach mi s sz).2.kaslr_slide_set = true := by
    intro mach mi s sz
    unfold getRunningAddresses
    repeat'
      first
        | exact Or.inl rfl
        | exact Or.inr rfl
        | (right; assumption)
        | split
        | simp_all
  have hsucc : ∀ (mach : Machine) (mi : MachInfo) (s sz : Nat),
      (getRunningAddresses mach mi s sz).1 = KERN_SUCCESS →
      (getRunningAddresses mach mi s sz).2.kaslr_slide_set = true := by
    intro mach mi s sz h
    rcases hcases mach mi s sz with hf | ht
    · rw [h] at hf
      exact absurd hf (by decide)
    · exact ht
  exact ⟨hdone, fun mach mach' mi s sz s' sz' h =>
    hdone mach' _ s' sz' (hsucc mach mi s sz h)⟩

/-- Closed instance of C9: a handle with slide 7 already known is
returned unchanged with success. -/
theorem getRunningAddresses_idempotent_witness :
    getRunningAddresses kextMach miSet 0 0 = (KERN_SUCCESS, miSet) :=
  getRunningAddresses_idempotent.1 kextMach miSet 0 0 rfl

/-- C4 evaluation: the load-command walk does visit exactly ncmds records
advancing by each record's declared cmdsize (first conjunct), but a zero
cmdsize is not rejected — on badBuf (ncmds = 2, first command's cmdsize
0) the walk revisits offset 32 twice and processMachHeader returns
normally with the symbol-table fields of the re-read command, reporting
no error of any kind (its return type has none). -/
theorem processMachHeader_zero_cmdsize :
    (∀ (mem : Nat → Nat) (addr n : Nat), (lcOffsets mem addr n).length = n) ∧
    readU32 badBuf 16 = 2 ∧
    readU32 badBuf 36 = 0 ∧
    lcOffsets badBuf 32 2 = [32, 32] ∧
    (processMachHeader mi0 badBuf).symboltable_fileoff = 7 ∧
    (processMachHeader mi0 badBuf).symboltable_nr_symbols = 1 ∧
    (processMachHeader mi0 badBuf).stringtable_fileoff = 9 := by
  refine ⟨?_, by decide, by decide, by decide, by decide, by decide,
    by decide⟩
  intro mem addr n
  induction n generalizing addr with
  | zero => rfl
  | succ k ih => simp [lcOffsets, ih]

/-- C5 evaluation: with every lookup succeeding, readMachHeader failing on
path 0 and path 1 matching, init's loop acquires path 0's vnode and never
releases it (the parse-failure leak); in the spec's scenario — path 0
fails to open, path 1 parses and identity-matches — the handle comes from
path 1 and every acquired vnode is released. -/
theorem init_vnode_release :
    ((initVnodes envLeak true [0, 1]).1 = some 1 ∧
     0 ∈ (initVnodes envLeak true [0, 1]).2.1 ∧
     0 ∉ (initVnodes envLeak true [0, 1]).2.2) ∧
    ((initVnodes envGood true [0, 1]).1 = some 1 ∧
     (initVnodes envGood true [0, 1]).2.1 = [1] ∧
     (initVnodes envGood true [0, 1]).2.2 = [1]) := by
  decide

/-- C7 evaluation: on the file path a completed read with residual bytes
is rejected — readFileData reports EINVAL and readLinkedit fails for
every nonzero residual — but when uio_create yields null readFileData
returns its 0-initialised error local, so readLinkedit reports success
despite having obtained no bytes at all. -/
theorem readLinkedit_short_read :
    (∀ r : Nat,
      readFileData { uioOk := true, addiovErr := 0, readErr := 0, resid := r }
        = if r == 0 then 0 else EINVAL) ∧
    (∀ r : Nat,
      readLinkedit true
        { uioOk := true, addiovErr := 0, readErr := 0, resid := r } mi0
        = if r == 0 then KERN_SUCCESS else KERN_FAILURE) ∧
    readLinkedit true uioFailEnv mi0 = KERN_SUCCESS := by
  refine ⟨?_, ?_, by decide⟩
  · intro r
    by_cases hr : r = 0
    · subst hr
      rfl
    · simp [readFileData, hr]
  · intro r
    by_cases hr : r = 0
    · subst hr
      rfl
    · simp [readLinkedit, readFileData, mi0, hr, KERN_FAILURE, EINVAL]

/-- C8: setKernelWriting's interrupt discipline — when enabling writing
the trace starts with cli followed by the CR0 write; when restoring it is
exactly the CR0 write followed by sti; the call reports success exactly
when the re-read WP bit matches the requested protection state; and the
final interrupt flag is cleared only on a successful enable, so a failed
bit update never returns with interrupts left disabled. -/
theorem setKernelWriting_interrupts :
    (∀ hw : HW, ∃ v t,
      (setKernelWriting hw true).2.2 = Ev.cli :: Ev.wr v :: t) ∧
    (∀ hw : HW, ∃ v,
      (setKernelWriting hw false).2.2 = [Ev.wr v, Ev.sti]) ∧
    (∀ (hw : HW) (e : Bool),
      ((setKernelWriting hw e).1 == KERN_SUCCESS)
        = (((setKernelWriting hw e).2.1.cr0 &&& CR0_WP == 0) == e)) ∧
    (∀ (hw : HW) (e : Bool),
      (setKernelWriting hw e).2.1.ints
        = !(e && ((setKernelWriting hw e).1 == KERN_SUCCESS))) := by
  refine ⟨?_, ?_, ?_, ?_⟩
  · intro hw
    exact ⟨_, _, rfl⟩
  · intro hw
    cases hok : ((set_cr0 hw (hw.cr0 ||| CR0_WP)).cr0 &&& CR0_WP != 0) <;>
      simp [setKernelWriting, setWPBit, hok, KERN_SUCCESS, KERN_FAILURE]
  · intro hw e
    cases e
    · cases hok : ((set_cr0 hw (hw.cr0 ||| CR0_WP)).cr0 &&& CR0_WP != 0) <;>
        simp_all [setKernelWriting, setWPBit, set_cr0, KERN_SUCCESS, KERN_FAILURE]
    · cases hok : ((set_cr0 { hw with ints := false }
          ({ hw with ints := false }.cr0 &&& (U64 - 1 - CR0_WP))).cr0
            &&& CR0_WP == 0) <;>
        simp_all [setKernelWriting, setWPBit, set_cr0, KERN_SUCCESS, KERN_FAILURE]
  · intro hw e
    cases e
    · cases hok : ((set_cr0 hw (hw.cr0 ||| CR0_WP)).cr0 &&& CR0_WP != 0) <;>
        simp_all [setKernelWriting, setWPBit, set_cr0, KERN_SUCCESS, KERN_FAILURE]
    · cases hok : ((set_cr0 { hw with ints := false }
          ({ hw with ints := false }.cr0 &&& (U64 - 1 - CR0_WP))).cr0
            &&& CR0_WP == 0) <;>
        simp_all [setKernelWriting, setWPBit, set_cr0, KERN_SUCCESS, KERN_FAILURE]

end Mach
